import Mathlib

/-!
Verification of the `file_retriever` package against its specification.

Shallow embedding of the Python sources:
  * `file.py` — `FileInfo` / `File` metadata model and its parsing
    constructors (`__init__`, `from_stat_data`, `from_fileinfo`,
    `__parse_mdtm_time`, `__parse_permissions`);
  * `connect.py` — `ConnectionClient._create_client` and
    `ConnectionClient.list_files`;
  * `_clients.py` — `_ftpClient._check_dir`, `_ftpClient._is_file` and the
    MDTM reply handling of `_ftpClient.get_file_data`;
  * the `Client` facade (`file_exists`, `put_file`) is not present in the
    sources and is modelled from the specification where needed.

Python exceptions are modelled as an explicit error type; fallible
constructors return `Except`.  Machine times are integers (epoch seconds);
Python floats appearing as stat times are modelled as rationals, with
`int()` conversion modelled as truncation toward zero.
-/

/-- Errors raised by the embedded Python code.  `attributeError` models
Python's `AttributeError` (the spec's `MissingAttribute`), `valueError`
models `ValueError` (the spec's `InvalidConfiguration` for bad ports and
`strptime`/`int()` parse failures), `typeError` models `TypeError`
(raised when comparing offset-naive and offset-aware datetimes),
`retrieverFileError` models the package's `RetrieverFileError` (the
spec's `FileOperationFailed`). -/
inductive PyErr where
  | attributeError (msg : String)
  | valueError (msg : String)
  | typeError (msg : String)
  | retrieverFileError
  deriving Repr, DecidableEq

/-- The value stored in `FileInfo.file_mtime` input position: Python lets it
be a float (stat time), an int (SFTP time) or a string (FTP MDTM time). -/
inductive MTime where
  | float (q : ℚ)
  | int (i : ℤ)
  | str (s : String)
  deriving Repr, DecidableEq

/-- The value stored in the `file_mode` input position: a symbolic
permission string, an int, or Python `None`. -/
inductive Mode where
  | ofStr (s : String)
  | ofInt (i : ℤ)
  | null
  deriving Repr, DecidableEq

/-- `file_retriever.file.FileInfo` after construction: `file_mtime` and
`file_mode` have been normalized to integers by `FileInfo.__init__`. -/
structure FileInfo where
  file_name : String
  file_mtime : ℤ
  file_mode : ℤ
  file_size : ℤ
  file_uid : Option ℤ := none
  file_gid : Option ℤ := none
  file_atime : Option ℚ := none
  deriving Repr, DecidableEq

/-- Python `int()` applied to a float/rational: truncation toward zero
(`int(-0.5) = 0`, `int(-3.5) = -3`), i.e. t-division of the numerator by
the denominator. -/
def pyInt (q : ℚ) : ℤ := q.num.tdiv (q.den : ℤ)

/-- Value of a decimal digit character. -/
def digitVal (c : Char) : ℕ := c.toNat - 48

/-- One character of the file-type position of a symbolic permission
string, after `replace("d", "4").replace("-", "1")` and `int()`:
`d ↦ 4`, `-` `↦ 1`, a decimal digit stays itself, anything else makes
`int()` raise `ValueError` (`none`). -/
def typeDigit (c : Char) : Option ℕ :=
  if c = 'd' then some 4
  else if c = '-' then some 1
  else if c.isDigit then some (digitVal c)
  else none

/-- One character of the nine permission positions, after
`replace("-", "0").replace("r", "4").replace("w", "2").replace("x", "1")`
and `int()` per character. -/
def permDigit (c : Char) : Option ℕ :=
  if c = '-' then some 0
  else if c = 'r' then some 4
  else if c = 'w' then some 2
  else if c = 'x' then some 1
  else if c.isDigit then some (digitVal c)
  else none

/-- `FileInfo.__parse_permissions` from `file.py`: parse a 10-character
symbolic permission string (e.g. `-rwxrwxrwx`) to a decimal mode,
`(filetype * 8^5) + (owner * 8^2) + (group * 8^1) + (other * 8^0)`.
`none` models the `IndexError`/`ValueError` Python raises on strings that
are too short or hold unexpected characters. -/
def parse_permissions (s : String) : Option ℤ :=
  match s.data with
  | t :: p1 :: p2 :: p3 :: p4 :: p5 :: p6 :: p7 :: p8 :: p9 :: _ =>
    match typeDigit t, permDigit p1, permDigit p2, permDigit p3, permDigit p4,
        permDigit p5, permDigit p6, permDigit p7, permDigit p8, permDigit p9 with
    | some ft, some a1, some a2, some a3, some b1, some b2, some b3,
        some c1, some c2, some c3 =>
      some ((ft * 8 ^ 5 : ℕ) + (0 * 8 ^ 4) + (0 * 8 ^ 3)
        + (a1 + a2 + a3) * 8 ^ 2 + (b1 + b2 + b3) * 8 ^ 1 + (c1 + c2 + c3) * 8 ^ 0)
    | _, _, _, _, _, _, _, _, _, _ => none
  | _ => none

/-- Whether `y` is a leap year in the proleptic Gregorian calendar used by
Python's `datetime`. -/
def isLeap (y : ℕ) : Bool := y % 4 = 0 && (y % 100 ≠ 0 || y % 400 = 0)

/-- Number of days in month `m` of year `y` (months 1–12). -/
def daysInMonth (y m : ℕ) : ℕ :=
  if m = 2 then (if isLeap y then 29 else 28)
  else if m = 4 ∨ m = 6 ∨ m = 9 ∨ m = 11 then 30
  else 31

/-- Days in all years strictly before year `y` (year 1 is the first). -/
def daysBeforeYear (y : ℕ) : ℕ :=
  365 * (y - 1) + (y - 1) / 4 - (y - 1) / 100 + (y - 1) / 400

/-- Days in the months of year `y` strictly before month `m`. -/
def daysBeforeMonth (y m : ℕ) : ℕ :=
  let base : ℕ :=
    match m with
    | 1 => 0 | 2 => 31 | 3 => 59 | 4 => 90 | 5 => 120 | 6 => 151
    | 7 => 181 | 8 => 212 | 9 => 243 | 10 => 273 | 11 => 304 | 12 => 334
    | _ => 0
  if 3 ≤ m ∧ isLeap y then base + 1 else base

/-- Day number of the civil date `(y, m, d)` counted from the epoch
1970-01-01 (which is day 0); negative before 1970. -/
def epochDays (y m d : ℕ) : ℤ :=
  (daysBeforeYear y + daysBeforeMonth y m + (d - 1) : ℤ) - 719162

/-- UTC epoch seconds of `(y, m, d, h, mi, s)`, as computed by
`datetime(..., tzinfo=utc).timestamp()`. -/
def epochOf (y m d h mi s : ℕ) : ℤ :=
  epochDays y m d * 86400 + (h * 3600 + mi * 60 + s : ℤ)

/-- Digit value at index `i` of a character list (0 beyond the end). -/
def digAt (cs : List Char) (i : ℕ) : ℕ := digitVal (cs.getD i '0')

/-- Year field (characters 0–3) of a 14-digit MDTM string. -/
def mdtmYear (cs : List Char) : ℕ :=
  1000 * digAt cs 0 + 100 * digAt cs 1 + 10 * digAt cs 2 + digAt cs 3

/-- Month field (characters 4–5). -/
def mdtmMonth (cs : List Char) : ℕ := 10 * digAt cs 4 + digAt cs 5

/-- Day field (characters 6–7). -/
def mdtmDay (cs : List Char) : ℕ := 10 * digAt cs 6 + digAt cs 7

/-- Hour field (characters 8–9). -/
def mdtmHour (cs : List Char) : ℕ := 10 * digAt cs 8 + digAt cs 9

/-- Minute field (characters 10–11). -/
def mdtmMin (cs : List Char) : ℕ := 10 * digAt cs 10 + digAt cs 11

/-- Second field (characters 12–13). -/
def mdtmSec (cs : List Char) : ℕ := 10 * digAt cs 12 + digAt cs 13

/-- `FileInfo.__parse_mdtm_time` from `file.py`:
`strptime(s, "%Y%m%d%H%M%S")` interpreted as UTC, converted to an integer
epoch timestamp.  `none` models the `ValueError` raised by `strptime` on a
string that is not 14 digits or whose fields are out of range. -/
def parse_mdtm_time (s : String) : Option ℤ :=
  let cs := s.data
  if cs.length = 14 ∧ cs.all Char.isDigit ∧
      1 ≤ mdtmYear cs ∧
      1 ≤ mdtmMonth cs ∧ mdtmMonth cs ≤ 12 ∧
      1 ≤ mdtmDay cs ∧ mdtmDay cs ≤ daysInMonth (mdtmYear cs) (mdtmMonth cs) ∧
      mdtmHour cs ≤ 23 ∧ mdtmMin cs ≤ 59 ∧ mdtmSec cs ≤ 59 then
    some (epochOf (mdtmYear cs) (mdtmMonth cs) (mdtmDay cs)
      (mdtmHour cs) (mdtmMin cs) (mdtmSec cs))
  else none

/-- The `file_mtime` normalization step of `FileInfo.__init__` from
`file.py`: string ⇒ MDTM parse, float/int ⇒ `int()`.  `Except.error`
models the exceptions the parsers raise. -/
def initMtime (file_mtime : MTime) : Except PyErr ℤ :=
  match file_mtime with
  | .str s =>
    match parse_mdtm_time s with
    | some t => .ok t
    | none => .error (.valueError "time data does not match format")
  | .float q => .ok (pyInt q)
  | .int i => .ok i

/-- The `file_mode` normalization step of `FileInfo.__init__`. -/
def initMode (file_mode : Mode) : Except PyErr ℤ :=
  match file_mode with
  | .ofStr s =>
    match parse_permissions s with
    | some m => .ok m
    | none => .error (.valueError "invalid literal for int")
  | .null => .ok 0
  | .ofInt i => .ok i

/-- `FileInfo.__init__` continued: normalize the two fields, store the
rest unchanged. -/
def fileInfoInit (file_name : String) (file_mtime : MTime) (file_mode : Mode)
    (file_size : ℤ) (file_uid : Option ℤ := none) (file_gid : Option ℤ := none)
    (file_atime : Option ℚ := none) : Except PyErr FileInfo := do
  let mtime : ℤ ← initMtime file_mtime
  let mode : ℤ ← initMode file_mode
  pure { file_name := file_name, file_mtime := mtime, file_mode := mode,
         file_size := file_size, file_uid := file_uid, file_gid := file_gid,
         file_atime := file_atime }

/-- A stat time as found in `st_mtime`/`st_atime`: Python float or int
(the `isinstance(data.st_mtime, float | int)` check in `from_stat_data`). -/
inductive StatNum where
  | ofFloat (q : ℚ)
  | ofInt (i : ℤ)
  deriving Repr, DecidableEq

/-- The integer `FileInfo.__init__` stores for a given stat time. -/
def statNumToInt (v : StatNum) : ℤ :=
  match v with
  | .ofFloat q => pyInt q
  | .ofInt i => i

/-- The `MTime` input `from_stat_data` passes to the constructor. -/
def statNumToMTime (v : StatNum) : MTime :=
  match v with
  | .ofFloat q => .float q
  | .ofInt i => .int i

/-- Input to `FileInfo.from_stat_data`: the fields of an `os.stat_result`
or `paramiko.SFTPAttributes` object that the constructor reads.  `isSftp`
distinguishes `paramiko.SFTPAttributes` (which may carry `filename` and
`longname`) from `os.stat_result`; `none` models an absent or `None`
Python attribute. -/
structure StatData where
  isSftp : Bool := false
  filename : Option String := none
  longname : Option String := none
  st_mode : Option ℤ := none
  st_size : Option ℤ := none
  st_mtime : Option StatNum := none
  st_uid : Option ℤ := none
  st_gid : Option ℤ := none
  st_atime : Option ℚ := none
  deriving Repr, DecidableEq

/-- `FileInfo.from_stat_data` from `file.py`: resolves the file name
(explicit argument, else SFTP `filename`, else `longname[56:]`), the mode
(integer `st_mode`, else SFTP `longname[0:10]`), requires `st_size` and a
numeric `st_mtime`, and delegates to `FileInfo.__init__`.  Each missing
attribute raises `AttributeError` with the source's message. -/
def from_stat_data (data : StatData) (file_name : Option String := none) :
    Except PyErr FileInfo := do
  let name : String ←
    match file_name with
    | some n => pure n
    | none =>
      match data.isSftp, data.filename, data.longname with
      | true, some fn, _ => pure fn
      | true, none, some ln => pure (String.mk (ln.data.drop 56))
      | _, _, _ => throw (.attributeError "No filename provided")
  let st_mode : Mode ←
    match data.st_mode with
    | some m => pure (.ofInt m)
    | none =>
      match data.isSftp, data.longname with
      | true, some ln => pure (.ofStr (String.mk (ln.data.take 10)))
      | _, _ => throw (.attributeError "No file mode provided")
  let st_size : ℤ ←
    match data.st_size with
    | some s => pure s
    | none => throw (.attributeError "No file size provided")
  let st_mtime : StatNum ←
    match data.st_mtime with
    | some v => pure v
    | none => throw (.attributeError "No file modification time provided")
  fileInfoInit name (statNumToMTime st_mtime) st_mode st_size
    data.st_uid data.st_gid data.st_atime

/-- File content: the bytes behind the `io.BytesIO` stream. -/
def ByteStream := List (Fin 256)

instance : DecidableEq ByteStream :=
  inferInstanceAs (DecidableEq (List (Fin 256)))

/-- `file_retriever.file.File`: a `FileInfo` plus the content stream. -/
structure File extends FileInfo where
  file_stream : ByteStream

/-- `File.__init__` from `file.py`: runs `FileInfo.__init__` on the
metadata arguments and attaches the stream. -/
def fileInit (file_name : String) (file_mtime : MTime) (file_mode : Mode)
    (file_size : ℤ) (file_stream : ByteStream) (file_uid : Option ℤ := none)
    (file_gid : Option ℤ := none) (file_atime : Option ℚ := none) :
    Except PyErr File := do
  let info ← fileInfoInit file_name file_mtime file_mode file_size
    file_uid file_gid file_atime
  pure { toFileInfo := info, file_stream := file_stream }

/-- `File.from_fileinfo` from `file.py`: builds a `File` from an existing
`FileInfo` and a stream by passing the `FileInfo`'s (already normalized)
fields back through `File.__init__`. -/
def from_fileinfo (file : FileInfo) (file_stream : ByteStream) :
    Except PyErr File :=
  fileInit file.file_name (.int file.file_mtime) (.ofInt file.file_mode)
    file.file_size file_stream file.file_uid file.file_gid file.file_atime

/-- The two protocol variants of `connect.py`. -/
inductive ClientKind where
  | ftp
  | sftp
  deriving Repr, DecidableEq

/-- Observable side effects of client construction: opening a network
connection to the server (`_ftpClient.__init__` / `_sftpClient.__init__`
both connect immediately). -/
inductive ConnectAction where
  | connectFtp
  | connectSftp
  deriving Repr, DecidableEq

/-- `ConnectionClient._create_client` from `connect.py`: port 21 builds an
FTP client, port 22 an SFTP client (each opening its connection), any
other port raises `ValueError` before any connection is attempted.  The
second component is the trace of connection attempts. -/
def create_client (port : ℤ) :
    Except PyErr ClientKind × List ConnectAction :=
  if port = 21 then (.ok .ftp, [.connectFtp])
  else if port = 22 then (.ok .sftp, [.connectSftp])
  else (.error (.valueError "Invalid port number"), [])

/-- One directory entry as seen by `ConnectionClient.list_files`: the name
returned by `list_file_names` together with the `st_mtime` that
`get_file_data` reports for it (`none` models `st_mtime is None`). -/
structure DirEntry where
  name : String
  mtime : Option ℤ
  deriving Repr, DecidableEq

/-- The filtering loop of `ConnectionClient.list_files` when `time_delta`
is not `None`.  For each entry, `file_data.st_mtime is not None` is
evaluated first: when it is `None` the `and` short-circuits to `False`
and the entry is skipped.  When the `st_mtime` is known, the code
evaluates `datetime.fromtimestamp(st_mtime, tz=utc) >= today -
timedelta(days=time_delta)` — an offset-aware datetime compared against
the offset-naive `datetime.now()` — which raises `TypeError` and aborts
the whole call. -/
def list_files_filter (entries : List DirEntry) : Except PyErr (List String) :=
  match entries with
  | [] => .ok []
  | e :: rest =>
    match e.mtime with
    | none => list_files_filter rest
    | some _ =>
      .error (.typeError
        "cannot compare offset-naive and offset-aware datetimes")

/-- `ConnectionClient.list_files` from `connect.py`: with `time_delta =
None` it returns all listed names unfiltered; with `time_delta = some d`
it runs the filtering loop, which raises `TypeError` at the first entry
with a known `st_mtime` (see `list_files_filter`).  `now` is the epoch
time of `datetime.now()` taken at the start of the call and `d` the day
count; neither is consulted before the comparison raises. -/
def list_files (_now : ℤ) (entries : List DirEntry)
    (time_delta : Option ℤ) : Except PyErr (List String) :=
  match time_delta with
  | none => .ok (entries.map (·.name))
  | some _ => list_files_filter entries

/-- Strip the leading `/` characters of a path, as Python's
`.lstrip("/")`. -/
def lstripSlash (s : String) : List Char := s.data.dropWhile (· = '/')

/-- A path string as the FTP server's `PWD` reports it: absolute with a
single leading slash. -/
def CanonicalPath (s : String) : Prop := s.data = '/' :: lstripSlash s

instance (s : String) : Decidable (CanonicalPath s) := by
  unfold CanonicalPath; infer_instance

/-- The observable behaviour of the FTP server needed by the directory
probe: `resolve wd target` is the working directory (as `PWD` would report
it) after a successful `CWD target` issued from working directory `wd`,
and `none` when the server answers the `CWD` with an error
(`ftplib.error_perm`). -/
structure FtpServer where
  resolve : String → String → Option String

/-- `_ftpClient._check_dir` from `_clients.py`: issue `CWD dir` only when
`pwd().lstrip("/") != dir.lstrip("/")`.  Returns the new working
directory, `none` when the `CWD` fails. -/
def check_dir (srv : FtpServer) (wd : String) (dir : String) :
    Option String :=
  if lstripSlash wd ≠ lstripSlash dir then srv.resolve wd dir else some wd

/-- `_ftpClient._is_file` from `_clients.py`: remember `pwd()`, attempt
`CWD {dir}/{file_name}`; on success restore the remembered directory via
`_check_dir` and report "not a file", on `error_perm` report "a file".
Result: the boolean answer and the final working directory.  An
`error_perm` raised by the restoring `_check_dir` is caught by the same
`except` clause, so that branch answers `true` while leaving the working
directory unrestored. -/
def is_file (srv : FtpServer) (wd : String) (dir file_name : String) :
    Bool × String :=
  let current_dir := wd
  let dir' := if dir = "" then current_dir else dir
  match srv.resolve wd (dir' ++ "/" ++ file_name) with
  | none => (true, wd)
  | some w =>
    match check_dir srv w current_dir with
    | some w' => (false, w')
    | none => (true, w)

/-- MDTM reply handling of `_ftpClient.get_file_data` from `_clients.py`:
the reply of `voidcmd(f"MDTM {file_name}")` (of the shape
`213 YYYYMMDDHHMMSS`) is passed to the `FileInfo` constructor as
`time[4:]`, i.e. with the 3-digit response code and the separating space
stripped. -/
def mdtm_strip (reply : String) : String := String.mk (reply.data.drop 4)

/-- Modelled from the spec: `Client.file_exists` for a remote target (the
`Client` facade of `connect.py` is not present in the sources; only its
tests and callers are).  Per the spec, the probe performs a `getMetadata`
call and compares the `(name, size)` pair; any `FileOperationFailed`
raised by the lookup (including not-found) is treated as "does not exist"
and never re-raised. -/
def file_exists (lookup : Except PyErr FileInfo) (name : String)
    (size : ℤ) : Bool :=
  match lookup with
  | .error _ => false
  | .ok g => decide (g.file_name = name ∧ g.file_size = size)

/-- Modelled from the spec: the `getMetadata` lookup of a remote
destination directory, represented as the list of `FileInfo` entries it
holds.  Looking up a name finds the entry with that name and fails with a
`FileOperationFailed` when there is none. -/
def get_metadata (dest : List FileInfo) (name : String) :
    Except PyErr FileInfo :=
  match dest.find? (fun g => g.file_name = name) with
  | some g => .ok g
  | none => .error .retrieverFileError

/-- Modelled from the spec: the session `write` that `put` delegates to —
it stores the file's metadata in the destination directory, replacing any
entry of the same name. -/
def session_write (f : File) (dest : List FileInfo) : List FileInfo :=
  f.toFileInfo :: dest.filter (fun g => g.file_name ≠ f.file_name)

/-- Modelled from the spec: `Client.put_file` (`put(FileContent, dir,
remote, checkFirst)`, not present in the sources).  If `checkFirst` is
true and `exists(...)` is true the write is skipped and `null` is
returned; otherwise it delegates to the session's `write`.  Result: the
returned metadata (`none` = Python `None`) and the destination directory
after the call. -/
def put_file (f : File) (dest : List FileInfo) (checkFirst : Bool) :
    Option FileInfo × List FileInfo :=
  if checkFirst ∧ file_exists (get_metadata dest f.file_name)
      f.file_name f.file_size then
    (none, dest)
  else
    (some f.toFileInfo, session_write f dest)


/-! ## Spec-side definitions used for refinement statements -/

/-- Spec's type digit: `d ↦ 4`, `- ↦ 1` (documented form). -/
def specTypeDigit (c : Char) : ℕ := if c = 'd' then 4 else 1

/-- Spec's permission digit: `r ↦ 4`, `w ↦ 2`, `x ↦ 1`, `- ↦ 0`. -/
def specPermDigit (c : Char) : ℕ :=
  if c = 'r' then 4 else if c = 'w' then 2 else if c = 'x' then 1 else 0

/-- A permission character of the documented 10-character form. -/
def PermChar (c : Char) : Prop := c = 'r' ∨ c = 'w' ∨ c = 'x' ∨ c = '-'

/-- The documented 10-character symbolic permission form: a type character
`d` or `-` followed by nine permission characters. -/
def DocForm (s : String) : Prop :=
  s.data.length = 10 ∧
  (s.data.getD 0 ' ' = 'd' ∨ s.data.getD 0 ' ' = '-') ∧
  ∀ i, i < 10 → 1 ≤ i → PermChar (s.data.getD i ' ')

instance (s : String) : Decidable (DocForm s) := by
  unfold DocForm PermChar; infer_instance

/-- The spec's `decimalMode` formula: `type·8⁵ + owner·8² + group·8¹ +
other·8⁰`, the `8⁴` and `8³` positions always zero. -/
def decimalMode (s : String) : ℤ :=
  match s.data with
  | t :: p1 :: p2 :: p3 :: p4 :: p5 :: p6 :: p7 :: p8 :: p9 :: _ =>
    ((specTypeDigit t * 8 ^ 5
      + (specPermDigit p1 + specPermDigit p2 + specPermDigit p3) * 8 ^ 2
      + (specPermDigit p4 + specPermDigit p5 + specPermDigit p6) * 8 ^ 1
      + (specPermDigit p7 + specPermDigit p8 + specPermDigit p9) * 8 ^ 0 : ℕ) : ℤ)
  | _ => 0

lemma typeDigit_of_doc {c : Char} (h : c = 'd' ∨ c = '-') :
    typeDigit c = some (specTypeDigit c) := by
  rcases h with rfl | rfl <;> decide

lemma permDigit_of_doc {c : Char} (h : PermChar c) :
    permDigit c = some (specPermDigit c) := by
  rcases h with rfl | rfl | rfl | rfl <;> decide

/-- C3: for every 10-character symbolic permission string of the
documented form the permission parser is the deterministic pure function
`type·8⁵ + owner·8² + group·8¹ + other·8⁰` (type `d ↦ 4`, `- ↦ 1`;
triplets summing `r=4, w=2, x=1, -=0`; positions `8⁴`, `8³` zero), and it
maps `-rwxrwxrwx ↦ 33279`, `-rw-r--r-- ↦ 33188`, `-rw-rw-rw- ↦ 33206`. -/
theorem permission_formula_correct :
    (∀ s : String, DocForm s → parse_permissions s = some (decimalMode s)) ∧
    parse_permissions "-rwxrwxrwx" = some 33279 ∧
    parse_permissions "-rw-r--r--" = some 33188 ∧
    parse_permissions "-rw-rw-rw-" = some 33206 := by
  refine ⟨?_, by decide, by decide, by decide⟩
  intro s hs
  obtain ⟨hlen, htype, hperm⟩ := hs
  rcases hd : s.data with _ | ⟨t, _ | ⟨p1, _ | ⟨p2, _ | ⟨p3, _ | ⟨p4, _ | ⟨p5,
    _ | ⟨p6, _ | ⟨p7, _ | ⟨p8, _ | ⟨p9, rest⟩⟩⟩⟩⟩⟩⟩⟩⟩⟩ <;>
    rw [hd] at hlen <;>
    simp only [List.length_cons, List.length_nil] at hlen <;>
    try exact absurd hlen (by omega)
  rw [hd] at htype hperm
  have ht : t = 'd' ∨ t = '-' := htype
  have h1 : PermChar p1 := hperm 1 (by omega) (by omega)
  have h2 : PermChar p2 := hperm 2 (by omega) (by omega)
  have h3 : PermChar p3 := hperm 3 (by omega) (by omega)
  have h4 : PermChar p4 := hperm 4 (by omega) (by omega)
  have h5 : PermChar p5 := hperm 5 (by omega) (by omega)
  have h6 : PermChar p6 := hperm 6 (by omega) (by omega)
  have h7 : PermChar p7 := hperm 7 (by omega) (by omega)
  have h8 : PermChar p8 := hperm 8 (by omega) (by omega)
  have h9 : PermChar p9 := hperm 9 (by omega) (by omega)
  simp only [parse_permissions, decimalMode, hd]
  rw [typeDigit_of_doc ht, permDigit_of_doc h1, permDigit_of_doc h2,
    permDigit_of_doc h3, permDigit_of_doc h4, permDigit_of_doc h5,
    permDigit_of_doc h6, permDigit_of_doc h7, permDigit_of_doc h8,
    permDigit_of_doc h9]
  simp only [Option.some.injEq]
  push_cast
  ring

/-- Witness for C3 at the concrete input `drwxr-x--x`. -/
theorem permission_formula_correct_witness :
    parse_permissions "drwxr-x--x" = some (decimalMode "drwxr-x--x") :=
  permission_formula_correct.1 "drwxr-x--x" (by decide)

/-- C7: client construction selects the FTP variant for port 21 and the
SFTP variant for port 22 (each opening its connection); any other port
fails with the configuration error (`ValueError`, the spec's
`InvalidConfiguration`) and attempts no connection. -/
theorem create_client_port_selection :
    create_client 21 = (.ok .ftp, [.connectFtp]) ∧
    create_client 22 = (.ok .sftp, [.connectSftp]) ∧
    ∀ p : ℤ, p ≠ 21 → p ≠ 22 →
      create_client p = (.error (.valueError "Invalid port number"), []) := by
  refine ⟨rfl, rfl, ?_⟩
  intro p h1 h2
  simp [create_client, h1, h2]

/-- Witness for C7 at the concrete port 2200. -/
theorem create_client_port_selection_witness :
    create_client 2200 = (.error (.valueError "Invalid port number"), []) :=
  create_client_port_selection.2.2 2200 (by decide) (by decide)

lemma from_fileinfo_ok (f : FileInfo) (s : ByteStream) :
    from_fileinfo f s = .ok { toFileInfo := f, file_stream := s } := rfl

/-- C10: `File.from_fileinfo` round-trips: for every constructed
`FileInfo` (integer `file_mtime` and `file_mode`) and byte stream, the
resulting `File` carries exactly the fields of the `FileInfo` and exactly
the given stream, the metadata unchanged by the re-parsing constructor. -/
theorem from_fileinfo_roundtrip (f : FileInfo) (s : ByteStream) :
    ∃ F : File, from_fileinfo f s = .ok F ∧
      F.file_name = f.file_name ∧ F.file_mtime = f.file_mtime ∧
      F.file_mode = f.file_mode ∧ F.file_size = f.file_size ∧
      F.file_uid = f.file_uid ∧ F.file_gid = f.file_gid ∧
      F.file_atime = f.file_atime ∧ F.file_stream = s :=
  ⟨{ toFileInfo := f, file_stream := s }, from_fileinfo_ok f s,
    rfl, rfl, rfl, rfl, rfl, rfl, rfl, rfl⟩

/-- C6: the existence probe turns every failed metadata lookup (any
`FileOperationFailed`, including not-found) into the boolean `false` —
its result type is `Bool`, nothing is re-raised — and on a successful
lookup the answer is exactly the comparison of the `(name, size)` pair. -/
theorem file_exists_swallows_errors (name : String) (size : ℤ) :
    (∀ e : PyErr, file_exists (.error e) name size = false) ∧
    (∀ g : FileInfo, file_exists (.ok g) name size =
      decide (g.file_name = name ∧ g.file_size = size)) :=
  ⟨fun _ => rfl, fun _ => rfl⟩

/-- C1 (spec-modelled, the `Client` facade is absent from the sources):
when the destination directory (with its names unique, as directory
entries are) already holds a file with the same `(name, size)` pair,
`put` with `checkFirst = true` returns `None` and leaves the destination
untouched; `put` with `checkFirst = false` always performs the session
write. -/
theorem put_file_check_semantics (f : File) (dest : List FileInfo) :
    ((dest.map FileInfo.file_name).Nodup →
      (∃ g ∈ dest, g.file_name = f.file_name ∧ g.file_size = f.file_size) →
      put_file f dest true = (none, dest)) ∧
    put_file f dest false = (some f.toFileInfo, session_write f dest) := by
  constructor
  · rintro hnodup ⟨g, hg, hname, hsize⟩
    cases hfind : dest.find? (fun g' => g'.file_name = f.file_name) with
    | none =>
      exact absurd (by simpa using List.find?_eq_none.mp hfind g hg) (by simp [hname])
    | some g' =>
      have hpg' : g'.file_name = f.file_name := by
        simpa using List.find?_some hfind
      have hmem : g' ∈ dest := List.mem_of_find?_eq_some hfind
      have hgg : g' = g :=
        List.inj_on_of_nodup_map hnodup hmem hg (by rw [hpg', hname])
      simp [put_file, get_metadata, hfind, file_exists, hpg', hgg, hsize, hname]
  · simp [put_file]

/-- Witness for C1 at a concrete destination holding the same
`(name, size)`. -/
theorem put_file_check_semantics_witness :
    put_file
      { file_name := "foo.mrc", file_mtime := 1704070800, file_mode := 33188,
        file_size := 140401, file_stream := [] }
      [{ file_name := "foo.mrc", file_mtime := 0, file_mode := 0,
         file_size := 140401 }] true =
    (none,
      [{ file_name := "foo.mrc", file_mtime := 0, file_mode := 0,
         file_size := 140401 }]) :=
  (put_file_check_semantics _ _).1 (by decide)
    ⟨{ file_name := "foo.mrc", file_mtime := 0, file_mode := 0,
       file_size := 140401 }, by decide, by decide, by decide⟩

/-- C2: `ConnectionClient.list_files` with `time_delta` absent returns
the full listing, but whenever `time_delta` is given it raises
`TypeError` at the first entry whose `st_mtime` is known (the aware
`fromtimestamp(..., tz=utc)` is compared against the naive
`datetime.now() - timedelta`), and returns `[]` only when every entry
lacks an `st_mtime`; in particular the claim's scenario — one file with
known modification time, any window — raises instead of filtering. -/
theorem list_files_window_typeerror :
    (∀ (now : ℤ) (entries : List DirEntry),
      list_files now entries none = .ok (entries.map (·.name))) ∧
    (∀ (now d : ℤ) (entries : List DirEntry),
      list_files now entries (some d) =
        if entries.all (fun e => e.mtime.isNone) then .ok []
        else .error (.typeError
          "cannot compare offset-naive and offset-aware datetimes")) ∧
    list_files 86400 [{ name := "foo.mrc", mtime := some 0 }] (some 0) =
      .error (.typeError
        "cannot compare offset-naive and offset-aware datetimes") := by
  refine ⟨fun _ _ => rfl, ?_, rfl⟩
  intro now d entries
  show list_files_filter entries = _
  induction entries with
  | nil => rfl
  | cons e rest ih =>
    cases hm : e.mtime with
    | none => simpa [list_files_filter, hm] using ih
    | some m => simp [list_files_filter, hm]

lemma canonical_path_eq {s t : String} (hs : CanonicalPath s)
    (ht : CanonicalPath t) (h : lstripSlash s = lstripSlash t) : s = t := by
  apply String.ext
  rw [hs, ht, h]

/-- C9: the FTP file-vs-directory probe (`CWD` into the candidate;
success ⇒ directory, `error_perm` ⇒ file) leaves the server's working
directory as it found it, whether the probe succeeds or fails — given a
server on which working directories are reported canonically and the
original working directory can always be returned to. -/
theorem is_file_restores_wd (srv : FtpServer) (wd dir fn : String)
    (h0 : CanonicalPath wd)
    (hres : ∀ w w' t, srv.resolve w t = some w' → CanonicalPath w')
    (hback : ∀ w, srv.resolve w wd = some wd) :
    (is_file srv wd dir fn).2 = wd := by
  unfold is_file check_dir
  cases hr : srv.resolve wd ((if dir = "" then wd else dir) ++ "/" ++ fn) with
  | none => simp [hr]
  | some w =>
    have hcw : CanonicalPath w := hres _ _ _ hr
    simp only [hr]
    by_cases hl : lstripSlash w ≠ lstripSlash wd
    · simp [hl, hback w]
    · push_neg at hl
      have hw : w = wd := canonical_path_eq hcw h0 hl
      simp [hl, hw]

/-- Witness for C9 on a one-directory server. -/
theorem is_file_restores_wd_witness :
    (is_file ⟨fun _ _ => some "/home"⟩ "/home" "" "f").2 = "/home" :=
  is_file_restores_wd ⟨fun _ _ => some "/home"⟩ "/home" "" "f" (by decide)
    (fun w w' t h => by injection h with h; rw [← h]; decide)
    (fun _ => rfl)

/-- C5: constructing metadata via `from_stat_data` from stat-like or
SFTP-attribute data with the modification time absent (or `None`) always
fails with an `AttributeError` — the code's realization of the spec's
`MissingAttribute` — never substituting a default; likewise when no
usable file name can be determined (no explicit name, and no SFTP
`filename`/`longname` to fall back on). -/
theorem from_stat_data_missing_attribute :
    (∀ (data : StatData) (fn : Option String), data.st_mtime = none →
      ∃ msg, from_stat_data data fn = .error (.attributeError msg)) ∧
    (∀ data : StatData,
      data.isSftp = false ∨ (data.filename = none ∧ data.longname = none) →
      from_stat_data data none = .error (.attributeError "No filename provided")) := by
  constructor
  · intro data fn h
    obtain ⟨sftp, fname, lname, mode, size, mtime, uid, gid, atime⟩ := data
    have h' : mtime = none := h
    subst h'
    rcases fn with _ | n <;> rcases sftp <;> rcases fname with _ | a <;>
      rcases lname with _ | b <;> rcases mode with _ | c <;>
      rcases size with _ | d <;> exact ⟨_, rfl⟩
  · intro data h
    obtain ⟨sftp, fname, lname, mode, size, mtime, uid, gid, atime⟩ := data
    rcases h with h | ⟨h1, h2⟩
    · have h' : sftp = false := h
      subst h'
      rfl
    · have h1' : fname = none := h1
      have h2' : lname = none := h2
      subst h1'
      subst h2'
      rcases sftp <;> rfl

/-- Witness for C5 at concrete stat data lacking only the modification
time, and at SFTP attributes offering no name at all. -/
theorem from_stat_data_missing_attribute_witness :
    (∃ msg, from_stat_data
      { isSftp := true, filename := some "foo.mrc", st_mode := some 33188,
        st_size := some 140401 } none = .error (.attributeError msg)) ∧
    from_stat_data { isSftp := true } none =
      .error (.attributeError "No filename provided") :=
  ⟨from_stat_data_missing_attribute.1
      { isSftp := true, filename := some "foo.mrc", st_mode := some 33188,
        st_size := some 140401 } none rfl,
    from_stat_data_missing_attribute.2 { isSftp := true }
      (Or.inr ⟨rfl, rfl⟩)⟩

/-- The canonical integer UTC epoch of a `file_mtime` input: truncation
for a float, identity for an int, the UTC MDTM parse for a string. -/
def mtimeCanon (m : MTime) : Option ℤ :=
  match m with
  | .float q => some (pyInt q)
  | .int i => some i
  | .str s => parse_mdtm_time s

lemma initMtime_ok {m : MTime} {t : ℤ} :
    initMtime m = .ok t ↔ mtimeCanon m = some t := by
  cases m with
  | float q => simp [initMtime, mtimeCanon]
  | int i => simp [initMtime, mtimeCanon]
  | str s => cases hp : parse_mdtm_time s <;> simp [initMtime, mtimeCanon, hp]

lemma fileInfoInit_mtime {n : String} {m : MTime} {md : Mode} {sz : ℤ}
    {uid gid : Option ℤ} {att : Option ℚ} {f : FileInfo}
    (h : fileInfoInit n m md sz uid gid att = .ok f) :
    mtimeCanon m = some f.file_mtime := by
  unfold fileInfoInit at h
  cases h1 : initMtime m with
  | error e =>
    rw [h1] at h
    exact Except.noConfusion h
  | ok t =>
    rw [h1] at h
    cases h2 : initMode md with
    | error e =>
      rw [h2] at h
      exact Except.noConfusion h
    | ok mo =>
      rw [h2] at h
      have h' : Except.ok (ε := PyErr)
          ({ file_name := n, file_mtime := t, file_mode := mo,
             file_size := sz, file_uid := uid, file_gid := gid,
             file_atime := att } : FileInfo) = .ok f := h
      cases h'
      exact initMtime_ok.mp h1

/-- C8: every successfully constructed `FileInfo` stores `file_mtime` as
the integer UTC epoch canonically derived from its source — truncated
float stat time, SFTP integer time, or parsed `YYYYMMDDHHMMSS` MDTM
string — and the `FileInfo`-producing operations (`from_stat_data`,
`File.from_fileinfo`) preserve this invariant. -/
theorem file_mtime_integer_invariant :
    (∀ (n : String) (m : MTime) (md : Mode) (sz : ℤ) (uid gid : Option ℤ)
      (att : Option ℚ) (f : FileInfo),
      fileInfoInit n m md sz uid gid att = .ok f →
      mtimeCanon m = some f.file_mtime) ∧
    (∀ (data : StatData) (fn : Option String) (f : FileInfo),
      from_stat_data data fn = .ok f →
      ∃ v, data.st_mtime = some v ∧ f.file_mtime = statNumToInt v) ∧
    (∀ (f : FileInfo) (s : ByteStream) (F : File),
      from_fileinfo f s = .ok F → F.file_mtime = f.file_mtime) := by
  refine ⟨?_, ?_, ?_⟩
  · intro n m md sz uid gid att f h
    exact fileInfoInit_mtime h
  · intro data fn f h
    obtain ⟨sftp, fname, lname, mode, size, mtime, uid, gid, atime⟩ := data
    rcases fn with _ | nm <;> rcases sftp <;> rcases fname with _ | a <;>
      rcases lname with _ | b <;> rcases mode with _ | c <;>
      rcases size with _ | d <;> rcases mtime with _ | v <;>
      first
        | exact Except.noConfusion h
        | (refine ⟨v, rfl, ?_⟩
           have h3 := fileInfoInit_mtime h
           cases v <;>
             simp only [statNumToMTime, mtimeCanon, statNumToInt,
               Option.some.injEq] at h3 ⊢ <;>
             exact h3.symm)
  · intro f s F h
    have h' : Except.ok (ε := PyErr)
        ({ toFileInfo := f, file_stream := s } : File) = .ok F :=
      (from_fileinfo_ok f s).symm.trans h
    cases h'
    rfl

/-- Witness for C8 at a concrete MDTM-string construction. -/
theorem file_mtime_integer_invariant_witness :
    mtimeCanon (.str "20240101010000") = some (1704070800 : ℤ) :=
  file_mtime_integer_invariant.1 "a" (.str "20240101010000") .null 1
    none none none
    { file_name := "a", file_mtime := 1704070800, file_mode := 0,
      file_size := 1 }
    (by rfl)

lemma isDigit_toNat_bounds {c : Char} (h : c.isDigit = true) :
    48 ≤ c.toNat ∧ c.toNat ≤ 57 := by
  simp only [Char.isDigit, Bool.and_eq_true, decide_eq_true_eq] at h
  exact ⟨UInt32.le_toNat_of_le (by decide) h.1,
    UInt32.toNat_le_of_le (by decide) h.2⟩

lemma digit_char_eq {c d : Char} (hc : c.isDigit = true)
    (hd : d.isDigit = true) (h : digitVal c = digitVal d) : c = d := by
  have bc := isDigit_toNat_bounds hc
  have bd := isDigit_toNat_bounds hd
  have ht : c.toNat = d.toNat := by
    unfold digitVal at h
    omega
  exact Char.eq_of_val_eq (UInt32.toNat.inj ht)

lemma all_digit_digAt_le {cs : List Char} (h : cs.all Char.isDigit = true) :
    ∀ i, digAt cs i ≤ 9 := by
  induction cs with
  | nil => intro i; simp [digAt, digitVal]
  | cons c cs ih =>
    simp only [List.all_cons, Bool.and_eq_true] at h
    intro i
    cases i with
    | zero =>
      have := isDigit_toNat_bounds h.1
      simp only [digAt, List.getD_cons_zero, digitVal]
      omega
    | succ j =>
      simpa [digAt] using ih h.2 j

lemma digitList_eq : ∀ {cs ds : List Char}, cs.length = ds.length →
    cs.all Char.isDigit = true → ds.all Char.isDigit = true →
    (∀ i, digAt cs i = digAt ds i) → cs = ds := by
  intro cs
  induction cs with
  | nil =>
    intro ds hlen _ _ _
    cases ds with
    | nil => rfl
    | cons d ds => simp at hlen
  | cons c cs ih =>
    intro ds hlen hc hd hdig
    cases ds with
    | nil => simp at hlen
    | cons d ds =>
      simp only [List.all_cons, Bool.and_eq_true] at hc hd
      have h0 : c = d :=
        digit_char_eq hc.1 hd.1 (by simpa [digAt] using hdig 0)
      have htl : cs = ds :=
        ih (by simpa using hlen) hc.2 hd.2
          (fun i => by simpa [digAt] using hdig (i + 1))
      rw [h0, htl]

lemma parse_mdtm_some {s : String} {t : ℤ} (h : parse_mdtm_time s = some t) :
    s.data.length = 14 ∧ s.data.all Char.isDigit = true ∧
    mdtmHour s.data ≤ 23 ∧ mdtmMin s.data ≤ 59 ∧ mdtmSec s.data ≤ 59 ∧
    t = epochOf (mdtmYear s.data) (mdtmMonth s.data) (mdtmDay s.data)
      (mdtmHour s.data) (mdtmMin s.data) (mdtmSec s.data) := by
  unfold parse_mdtm_time at h
  dsimp only at h
  split at h
  case isTrue hc =>
    injection h with h
    exact ⟨hc.1, hc.2.1, hc.2.2.2.2.2.2.2.1, hc.2.2.2.2.2.2.2.2.1,
      hc.2.2.2.2.2.2.2.2.2, h.symm⟩
  case isFalse => exact Option.noConfusion h

/-- C4: the MDTM time parser maps `20240101010000` (UTC) to epoch
`1704070800`; it is injective on distinct valid inputs within the same
day (same first eight date digits); and the full MDTM reply is handled
by stripping the 3-digit response code (and separator) before parsing
the remaining 14 digits. -/
theorem mdtm_parse_correct :
    parse_mdtm_time "20240101010000" = some 1704070800 ∧
    (∀ (s1 s2 : String) (t1 t2 : ℤ),
      parse_mdtm_time s1 = some t1 → parse_mdtm_time s2 = some t2 →
      (∀ i, i < 8 → digAt s1.data i = digAt s2.data i) →
      s1 ≠ s2 → t1 ≠ t2) ∧
    parse_mdtm_time (mdtm_strip "213 20240101010000") = some 1704070800 := by
  refine ⟨by decide, ?_, by decide⟩
  intro s1 s2 t1 t2 h1 h2 hday hne hteq
  obtain ⟨len1, dig1, hH1, hM1, hS1, ht1⟩ := parse_mdtm_some h1
  obtain ⟨len2, dig2, hH2, hM2, hS2, ht2⟩ := parse_mdtm_some h2
  have hY : mdtmYear s1.data = mdtmYear s2.data := by
    unfold mdtmYear
    rw [hday 0 (by omega), hday 1 (by omega), hday 2 (by omega),
      hday 3 (by omega)]
  have hMo : mdtmMonth s1.data = mdtmMonth s2.data := by
    unfold mdtmMonth
    rw [hday 4 (by omega), hday 5 (by omega)]
  have hDa : mdtmDay s1.data = mdtmDay s2.data := by
    unfold mdtmDay
    rw [hday 6 (by omega), hday 7 (by omega)]
  have hep : epochOf (mdtmYear s2.data) (mdtmMonth s2.data) (mdtmDay s2.data)
      (mdtmHour s1.data) (mdtmMin s1.data) (mdtmSec s1.data) =
      epochOf (mdtmYear s2.data) (mdtmMonth s2.data) (mdtmDay s2.data)
      (mdtmHour s2.data) (mdtmMin s2.data) (mdtmSec s2.data) := by
    rw [ht1, ht2, hY, hMo, hDa] at hteq
    exact hteq
  unfold epochOf at hep
  have htod : mdtmHour s1.data = mdtmHour s2.data ∧
      mdtmMin s1.data = mdtmMin s2.data ∧
      mdtmSec s1.data = mdtmSec s2.data := by omega
  have d1le := all_digit_digAt_le dig1
  have d2le := all_digit_digAt_le dig2
  obtain ⟨hh, hm, hs⟩ := htod
  unfold mdtmHour at hh
  unfold mdtmMin at hm
  unfold mdtmSec at hs
  have h8 : digAt s1.data 8 = digAt s2.data 8 := by
    have := d1le 8; have := d1le 9; have := d2le 8; have := d2le 9; omega
  have h9 : digAt s1.data 9 = digAt s2.data 9 := by
    have := d1le 8; have := d1le 9; have := d2le 8; have := d2le 9; omega
  have h10 : digAt s1.data 10 = digAt s2.data 10 := by
    have := d1le 10; have := d1le 11; have := d2le 10; have := d2le 11; omega
  have h11 : digAt s1.data 11 = digAt s2.data 11 := by
    have := d1le 10; have := d1le 11; have := d2le 10; have := d2le 11; omega
  have h12 : digAt s1.data 12 = digAt s2.data 12 := by
    have := d1le 12; have := d1le 13; have := d2le 12; have := d2le 13; omega
  have h13 : digAt s1.data 13 = digAt s2.data 13 := by
    have := d1le 12; have := d1le 13; have := d2le 12; have := d2le 13; omega
  have hall : ∀ i, digAt s1.data i = digAt s2.data i := by
    intro i
    rcases Nat.lt_or_ge i 8 with hi | hi
    · exact hday i hi
    rcases Nat.lt_or_ge i 14 with hi2 | hi2
    · interval_cases i <;> assumption
    · have e1 : s1.data.getD i '0' = '0' := by
        rw [List.getD_eq_getElem?_getD, List.getElem?_eq_none (by omega)]
        rfl
      have e2 : s2.data.getD i '0' = '0' := by
        rw [List.getD_eq_getElem?_getD, List.getElem?_eq_none (by omega)]
        rfl
      unfold digAt
      rw [e1, e2]
  exact hne (String.ext (digitList_eq (len1.trans len2.symm) dig1 dig2 hall))

/-- Witness for C4: two valid MDTM strings on the same day with distinct
seconds parse to distinct epochs. -/
theorem mdtm_parse_correct_witness : (1704070800 : ℤ) ≠ 1704070801 :=
  mdtm_parse_correct.2.1 "20240101010000" "20240101010001"
    1704070800 1704070801 (by decide) (by decide) (by decide) (by decide)
